import Mathlib

/-!
Verification of the conversation/message persistence and AI-turn orchestration
core of the LangChain-ChatBot backend.

The Python source is shallowly embedded:

* MongoDB documents of the `threads` and `messages` collections become the
  structures `ThreadDoc` and `MessageDoc`; the two collections together with a
  logical clock form a `Store`.
* `datetime.utcnow()` is modelled by the logical clock: each call reads the
  clock and advances it, so successive wall-clock readings within one request
  are strictly increasing Nat values.  The source stores ISO-8601 strings whose
  lexicographic order (for a fixed format) coincides with chronological order,
  so Nat timestamps are an order-faithful embedding.
* Mongo cursor chains `find(...).skip(a).limit(b).sort(k, d)` are embedded by
  the server semantics: the sort is applied first, then skip, then limit
  (pymongo cursor modifiers are mere options; the server always sorts before
  skipping).  A single-key sort leaves the relative order of equal keys
  unspecified; where a claim depends on tie order the sort is embedded as a
  relation over all key-sorted permutations, otherwise as a stable insertion
  sort applied to documents carrying pairwise distinct keys (where both
  readings agree).
* `insert_one` appends to the collection list (natural order), `find_one`,
  `update_one` and `delete_one` act on the first matching document,
  `delete_many` filters.
* Python values passed around as untyped dicts are embedded by the inductive
  `PyVal`; a Python *positional call* to `MessageRepository.create_message`
  is embedded by `create_message_pycall`, which implements CPython argument
  binding for its parameter list
  `(message_id, thread_id, role, content, metadata=None)`: fewer than four or
  more than five positional arguments raise `TypeError`.
* Exceptions that cross layer boundaries are embedded with `Except`; mutable
  database state survives an exception, so failing operations return
  `Except ... × Store`.
-/

/-- A scalar Python value, as far as this backend stores them in metadata. -/
inductive PyLeaf where
  | str (v : String)
  | int (v : Nat)
  | pynone
deriving DecidableEq, Repr

/-- A Python value inside a metadata mapping: a scalar or a flat dict of
scalars (such as the token-usage dict). -/
inductive PyVal where
  | leaf (v : PyLeaf)
  | dict (entries : List (String × PyLeaf))
deriving DecidableEq, Repr

/-- Shorthand for a string-valued metadata entry. -/
def PyVal.str (v : String) : PyVal := PyVal.leaf (PyLeaf.str v)

/-- Shorthand for an int-valued metadata entry. -/
def PyVal.int (v : Nat) : PyVal := PyVal.leaf (PyLeaf.int v)

/-- Open string-keyed metadata mapping attached to messages. -/
abbrev Metadata := List (String × PyVal)

/-- A Python value passed as a positional argument: a scalar or a dict (such
as the full welcome-message dict, whose values may themselves be dicts). -/
inductive PyArg where
  | str (v : String)
  | int (v : Nat)
  | pynone
  | dict (entries : Metadata)
deriving DecidableEq, Repr

/-- A document of the `threads` collection (`ThreadDocument` in schemas.py).
Timestamps are logical-clock readings (see module docstring). -/
structure ThreadDoc where
  id : String
  title : String
  createdAt : Nat
  updatedAt : Nat
deriving DecidableEq, Repr

/-- A document of the `messages` collection (`MessageDocument` in schemas.py). -/
structure MessageDoc where
  id : String
  threadId : String
  role : String
  content : String
  createdAt : Nat
  metadata : Metadata
deriving DecidableEq, Repr

/-- `MessageOut` response model (id, role, content, createdAt). -/
structure MessageOut where
  id : String
  role : String
  content : String
  createdAt : Nat
deriving DecidableEq, Repr

/-- The database state (both collections, in natural/insertion order) plus the
logical clock standing for `datetime.utcnow()`. -/
structure Store where
  threads : List ThreadDoc
  messages : List MessageDoc
  clock : Nat
deriving DecidableEq, Repr

/-- One `datetime.utcnow()` reading: returns the current instant and advances
the clock, so later readings are strictly larger. -/
def tick (s : Store) : Nat × Store :=
  (s.clock, { s with clock := s.clock + 1 })

/-- Key order used by `sort("createdAt", 1)` (ascending). -/
def byCreatedAtAsc (a b : MessageDoc) : Prop := a.createdAt ≤ b.createdAt

/-- Key order used by `sort("createdAt", -1)` (descending). -/
def byCreatedAtDesc (a b : MessageDoc) : Prop := b.createdAt ≤ a.createdAt

instance : DecidableRel byCreatedAtAsc := fun a b => Nat.decLe a.createdAt b.createdAt

instance : DecidableRel byCreatedAtDesc := fun a b => Nat.decLe b.createdAt a.createdAt

instance : IsTotal MessageDoc byCreatedAtAsc :=
  ⟨fun a b => Nat.le_total a.createdAt b.createdAt⟩

instance : IsTrans MessageDoc byCreatedAtAsc :=
  ⟨fun _ _ _ h1 h2 => Nat.le_trans h1 h2⟩

instance : IsTotal MessageDoc byCreatedAtDesc :=
  ⟨fun a b => Nat.le_total b.createdAt a.createdAt⟩

instance : IsTrans MessageDoc byCreatedAtDesc :=
  ⟨fun _ _ _ h1 h2 => Nat.le_trans h2 h1⟩

/-- `update_one({"id": tid}, {"$set": ...})` on `threads`: rewrite the first
matching document, report whether one matched. -/
def updateFirstThread (l : List ThreadDoc) (tid : String) (f : ThreadDoc → ThreadDoc) :
    List ThreadDoc × Bool :=
  match l with
  | [] => ([], false)
  | t :: ts =>
    if t.id = tid then (f t :: ts, true)
    else
      let r := updateFirstThread ts tid f
      (t :: r.1, r.2)

/-- `delete_one({"id": tid})` on `threads`: remove the first matching document,
report whether one matched. -/
def deleteFirstThread (l : List ThreadDoc) (tid : String) : List ThreadDoc × Bool :=
  match l with
  | [] => ([], false)
  | t :: ts =>
    if t.id = tid then (ts, true)
    else
      let r := deleteFirstThread ts tid
      (t :: r.1, r.2)

/-- MessageRepository.create_message (the body, with the four required fields
already bound to strings): stamps `createdAt` with `utcnow()`, defaults the
metadata to `{}` via `metadata or {}`, and inserts the document. -/
def MessageRepository.create_message (s : Store) (message_id thread_id role content : String)
    (metadata : Option Metadata) : MessageDoc × Store :=
  let now := (tick s).1
  let s1 := (tick s).2
  let doc : MessageDoc :=
    { id := message_id, threadId := thread_id, role := role, content := content,
      createdAt := now, metadata := metadata.getD [] }
  (doc, { s1 with messages := s1.messages ++ [doc] })

/-- Error message of the CPython TypeError raised when
`create_message` is called with too few positional arguments. -/
def createMessageArityError : String :=
  "TypeError: create_message() missing required positional arguments"

/-- A Python positional call to `MessageRepository.create_message`, parameter
list `(message_id, thread_id, role, content, metadata=None)`.  CPython binds
positional arguments left to right: four or five arguments run the body
(whose pydantic `MessageDocument` validates the required fields as strings);
any other arity raises `TypeError` before the body runs. -/
def MessageRepository.create_message_pycall (s : Store) (args : List PyArg) :
    Except String (MessageDoc × Store) :=
  match args with
  | [PyArg.str mid, PyArg.str tid, PyArg.str role, PyArg.str content] =>
    Except.ok (MessageRepository.create_message s mid tid role content Option.none)
  | [PyArg.str mid, PyArg.str tid, PyArg.str role, PyArg.str content, PyArg.dict m] =>
    Except.ok (MessageRepository.create_message s mid tid role content (Option.some m))
  | [_, _, _, _] => Except.error "ValidationError: MessageDocument fields must be strings"
  | [_, _, _, _, _] => Except.error "ValidationError: MessageDocument fields must be strings"
  | _ => Except.error createMessageArityError

/-- MessageRepository.get_messages: `find({"threadId": tid})` then (server
order) sort ascending on `createdAt`, skip, limit. -/
def MessageRepository.get_messages (s : Store) (thread_id : String) (skip limit : Nat) :
    List MessageDoc :=
  ((List.insertionSort byCreatedAtAsc
      (s.messages.filter (fun m => m.threadId = thread_id))).drop skip).take limit

/-- MessageRepository.get_history: `find({"threadId": tid})`, sort descending
on `createdAt`, limit, then a Python-side `reverse()` back to chronological
order. -/
def MessageRepository.get_history (s : Store) (thread_id : String) (limit : Nat) :
    List MessageDoc :=
  ((List.insertionSort byCreatedAtDesc
      (s.messages.filter (fun m => m.threadId = thread_id))).take limit).reverse

/-- MessageRepository.count_messages. -/
def MessageRepository.count_messages (s : Store) (thread_id : String) : Nat :=
  (s.messages.filter (fun m => m.threadId = thread_id)).length

/-- MessageRepository.delete_messages: `delete_many({"threadId": tid})`,
returning the deleted count. -/
def MessageRepository.delete_messages (s : Store) (thread_id : String) : Nat × Store :=
  ((s.messages.filter (fun m => m.threadId = thread_id)).length,
   { s with messages := s.messages.filter (fun m => ¬ m.threadId = thread_id) })

/-- Projection of a stored message to the `MessageOut` response model. -/
def MessageDoc.toOut (m : MessageDoc) : MessageOut :=
  { id := m.id, role := m.role, content := m.content, createdAt := m.createdAt }

/-- MessageRepository.get_messages_with_pagination: `get_messages` plus a
total count, projected to `MessageOut`. -/
def MessageRepository.get_messages_with_pagination (s : Store) (thread_id : String)
    (skip limit : Nat) : List MessageOut × Nat :=
  ((MessageRepository.get_messages s thread_id skip limit).map MessageDoc.toOut,
   MessageRepository.count_messages s thread_id)

/-- ThreadRepository.create_thread: stamps `createdAt = updatedAt = utcnow()`
and inserts the document. -/
def ThreadRepository.create_thread (s : Store) (thread_id title : String) :
    ThreadDoc × Store :=
  let now := (tick s).1
  let s1 := (tick s).2
  let doc : ThreadDoc := { id := thread_id, title := title, createdAt := now, updatedAt := now }
  (doc, { s1 with threads := s1.threads ++ [doc] })

/-- ThreadRepository.get_thread: `find_one({"id": tid})`, first match in
natural order. -/
def ThreadRepository.get_thread (s : Store) (thread_id : String) : Option ThreadDoc :=
  s.threads.find? (fun t => t.id = thread_id)

/-- Descending order on `updatedAt`, the (only) sort key of
`threads.find().skip(skip).limit(limit).sort("updatedAt", -1)`. -/
def sortedByUpdatedAtDesc (l : List ThreadDoc) : Prop :=
  l.Pairwise (fun a b => b.updatedAt ≤ a.updatedAt)

/-- ThreadRepository.get_threads, embedded relationally: the server sorts by
`updatedAt` descending only, leaving the relative order of equal keys
unspecified, then applies skip and limit.  `result` is a possible reply. -/
def ThreadRepository.get_threads_spec (s : Store) (skip limit : Nat)
    (result : List ThreadDoc) : Prop :=
  ∃ sorted : List ThreadDoc, sorted.Perm s.threads ∧ sortedByUpdatedAtDesc sorted ∧
    result = (sorted.drop skip).take limit

/-- ThreadRepository.update_thread: `update_data = {"updatedAt": utcnow()}`,
plus the title when one is supplied; `update_one` on the first matching
document; returns `matched_count > 0`. -/
def ThreadRepository.update_thread (s : Store) (thread_id : String) (title : Option String) :
    Bool × Store :=
  let now := (tick s).1
  let s1 := (tick s).2
  let r := updateFirstThread s1.threads thread_id
    (fun t => { t with updatedAt := now, title := title.getD t.title })
  (r.2, { s1 with threads := r.1 })

/-- ThreadRepository.delete_thread: `delete_one({"id": tid})`, returns
`deleted_count > 0`. -/
def ThreadRepository.delete_thread (s : Store) (thread_id : String) : Bool × Store :=
  let r := deleteFirstThread s.threads thread_id
  (r.2, { s with threads := r.1 })

/-- ThreadRepository.count_threads. -/
def ThreadRepository.count_threads (s : Store) : Nat := s.threads.length

/-- AIUsage model (token counters). -/
structure AIUsage where
  prompt_tokens : Nat
  completion_tokens : Nat
  total_tokens : Nat
deriving DecidableEq, Repr

/-- AIResponse model. -/
structure AIResponse where
  content : String
  model : String
  usage : AIUsage
  latency_ms : Nat
deriving DecidableEq, Repr

/-- The settings fields the AI flow reads (core/config.py). -/
structure Settings where
  ai_provider : String
  gemini_api_key : Option String
  gemini_model : String
  openai_api_key : Option String
  openai_model : String
  max_history_messages : Nat
deriving DecidableEq, Repr

/-- Python `len(s.split())`: number of maximal whitespace-free words. -/
def wordCount (s : String) : Nat :=
  ((s.split (fun c => c.isWhitespace)).filter (fun w => ¬ w = "")).length

/-- Python truthiness of an optional API-key string (`if not key`). -/
def keyTruthy (k : Option String) : Bool :=
  match k with
  | Option.none => false
  | Option.some v => ¬ v = ""

/-- Python `str.lower()` on the ASCII provider names used by the config
(embedded structurally so it evaluates inside the kernel). -/
def asciiLower (s : String) : String :=
  String.mk (s.data.map (fun c =>
    if 65 ≤ c.toNat ∧ c.toNat ≤ 90 then Char.ofNat (c.toNat + 32) else c))

/-- AIService._initialize_model reduced to its observable outcome: are
`self._llm` and `self._chain` both set?  That requires the LangChain import
to have succeeded, a recognized provider with a truthy API key, and the
provider constructor not to have raised (`ctor_ok`; a raise is caught and
leaves `_llm = None`). -/
def AIService.llm_configured (langchain_available ctor_ok : Bool) (st : Settings) : Bool :=
  langchain_available && ctor_ok &&
    (if asciiLower st.ai_provider = "gemini" then keyTruthy st.gemini_api_key
     else if asciiLower st.ai_provider = "openai" then keyTruthy st.openai_api_key
     else false)

/-- Constant pieces of the mock-mode reply strings in
AIService._mock_response (apostrophes written as \x27). -/
def apologyPre : String := "Xin lỗi, tôi gặp lỗi khi xử lý yêu cầu của bạn: "

/-- Tail of the error-branch mock reply. -/
def apologyPost : String := ". (Mock mode - cần cấu hình API key)"

/-- Head of the no-error mock reply. -/
def mockEchoPre : String := "Tôi đã nhận được tin nhắn của bạn: \x27"

/-- Tail of the no-error mock reply. -/
def mockEchoPost : String := "\x27. Đây là phản hồi từ AI Assistant. (Mock mode - cần cấu hình API key)"

/-- AIService._mock_response: synthetic degraded reply, model `"mock"`,
word-count usage estimates, measured latency. -/
def AIService.mock_response (content : String) (elapsed : Nat) (error : Option String) :
    AIResponse :=
  let ai_content :=
    match error with
    | Option.some e => apologyPre ++ e ++ apologyPost
    | Option.none => mockEchoPre ++ content ++ mockEchoPost
  { content := ai_content, model := "mock",
    usage := { prompt_tokens := wordCount content,
               completion_tokens := wordCount ai_content,
               total_tokens := wordCount content + wordCount ai_content },
    latency_ms := elapsed }

/-- AIService._get_model_name. -/
def AIService.get_model_name (st : Settings) : String :=
  if asciiLower st.ai_provider = "gemini" then st.gemini_model
  else if asciiLower st.ai_provider = "openai" then st.openai_model
  else "mock"

/-- Outcome of awaiting `self._chain.ainvoke(...)`: the extracted reply text
plus optional provider-reported usage metadata, or a raised exception. -/
inductive ChainOutcome where
  | ok (content : String) (meta : Option AIUsage)
  | exn (e : String)
deriving DecidableEq, Repr

/-- AIService._extract_usage: provider metadata when present, otherwise a
word-count estimate. -/
def AIService.extract_usage (content : String) (meta : Option AIUsage) : AIUsage :=
  match meta with
  | Option.some u => u
  | Option.none =>
    let est := wordCount content
    { prompt_tokens := est, completion_tokens := est, total_tokens := est * 2 }

/-- AIService.process_message: mock reply when `_llm`/`_chain` are unset,
otherwise the chain result; any exception is caught and converted to a mock
reply embedding the error text.  The `history` argument of the source is
accepted and ignored by the body (the chain uses its own memory), so it does
not appear here.  Total: no outcome raises to the caller. -/
def AIService.process_message (st : Settings) (configured : Bool) (content : String)
    (outcome : ChainOutcome) (elapsed : Nat) : AIResponse :=
  if configured = false then AIService.mock_response content elapsed Option.none
  else
    match outcome with
    | ChainOutcome.ok c meta =>
      { content := c, model := AIService.get_model_name st,
        usage := AIService.extract_usage c meta, latency_ms := elapsed }
    | ChainOutcome.exn e => AIService.mock_response content elapsed (Option.some e)

/-- SendMessageResponse model (assistant payload inlined). -/
structure SendMessageResponse where
  thread_id : String
  user_message_id : String
  assistant_message_id : String
  assistant_content : String
  assistant_model : String
  assistant_usage : AIUsage
  assistant_latency_ms : Nat
deriving DecidableEq, Repr

/-- The token-usage dict `ai_response.usage.dict()` as stored in metadata. -/
def usageDict (u : AIUsage) : PyVal :=
  PyVal.dict [("prompt_tokens", PyLeaf.int u.prompt_tokens),
              ("completion_tokens", PyLeaf.int u.completion_tokens),
              ("total_tokens", PyLeaf.int u.total_tokens)]

/-- ChatService._get_chat_history: `get_history` bounded by
`max_history_messages`, projected to `{role, content}` pairs. -/
def ChatService.get_chat_history (s : Store) (thread_id : String) (st : Settings) :
    List (String × String) :=
  (MessageRepository.get_history s thread_id st.max_history_messages).map
    (fun m => (m.role, m.content))

/-- ChatService.send_message: generate the two message ids from one `utcnow()`
reading, fetch the history window, call the AI service, persist the user
message then the assistant message (each stamped by its own `utcnow()`), then
touch the thread timestamp, and return both ids plus the assistant payload.
The chain outcome and elapsed time stand for the awaited AI call. -/
def ChatService.send_message (s : Store) (st : Settings) (configured : Bool)
    (thread_id content : String) (metadata : Option Metadata)
    (outcome : ChainOutcome) (elapsed : Nat) : SendMessageResponse × Store :=
  let now := (tick s).1
  let s0 := (tick s).2
  let user_message_id := "msg_" ++ toString now ++ "_user_" ++ toString now
  let assistant_message_id := "msg_" ++ toString now ++ "_assistant_" ++ toString (now + 1)
  let _history := ChatService.get_chat_history s0 thread_id st
  let ai := AIService.process_message st configured content outcome elapsed
  let s1 := (MessageRepository.create_message s0 user_message_id thread_id "user"
    content metadata).2
  let s2 := (MessageRepository.create_message s1 assistant_message_id thread_id "assistant"
    ai.content (Option.some [("model", PyVal.str ai.model), ("usage", usageDict ai.usage),
      ("latency_ms", PyVal.int ai.latency_ms)])).2
  let s3 := (ThreadRepository.update_thread s2 thread_id Option.none).2
  ({ thread_id := thread_id, user_message_id := user_message_id,
     assistant_message_id := assistant_message_id, assistant_content := ai.content,
     assistant_model := ai.model, assistant_usage := ai.usage,
     assistant_latency_ms := ai.latency_ms }, s3)

/-- Welcome text used by ThreadService._create_welcome_message. -/
def welcomeContent : String := "Xin chào! Tôi là AI Assistant. Tôi có thể giúp gì cho bạn?"

/-- ThreadService._create_welcome_message: builds the welcome-message dict
(id from `utcnow()`, role `assistant`, `metadata.type = "welcome"`) and then
calls `self.message_repo.create_message(welcome_message)` — the whole dict as
the SINGLE positional argument of a four-required-parameter method.  The
database state reached so far survives the exception. -/
def ThreadService.create_welcome_message (s : Store) (thread_id : String) :
    Except String Unit × Store :=
  let now := (tick s).1
  let s1 := (tick s).2
  let wdict : PyArg := PyArg.dict
    [("id", PyVal.str ("msg_" ++ toString now)),
     ("threadId", PyVal.str thread_id),
     ("role", PyVal.str "assistant"),
     ("content", PyVal.str welcomeContent),
     ("createdAt", PyVal.int now),
     ("metadata", PyVal.dict [("type", PyLeaf.str "welcome")])]
  match MessageRepository.create_message_pycall s1 [wdict] with
  | Except.ok r => (Except.ok (), r.2)
  | Except.error e => (Except.error e, s1)

/-- ThreadCreateResponse model. -/
structure ThreadCreateResponse where
  id : String
deriving DecidableEq, Repr

/-- SuccessResponse model. -/
structure SuccessResponse where
  ok : Bool
  message : String
deriving DecidableEq, Repr

/-- ThreadService.create_thread: generate the thread id from `utcnow()`,
insert the thread, then create the welcome message; an exception from the
welcome step propagates (the thread insert is not rolled back). -/
def ThreadService.create_thread (s : Store) (title : String) :
    Except String ThreadCreateResponse × Store :=
  let now := (tick s).1
  let s1 := (tick s).2
  let thread_id := "thread_" ++ toString now
  let s2 := (ThreadRepository.create_thread s1 thread_id title).2
  match ThreadService.create_welcome_message s2 thread_id with
  | (Except.ok _, s3) => (Except.ok { id := thread_id }, s3)
  | (Except.error e, s3) => (Except.error e, s3)

/-- ThreadService.delete_thread: delete all messages of the thread FIRST,
then delete the thread document; reports `None` (surfaced as 404) when the
thread did not match, with the message deletion already done. -/
def ThreadService.delete_thread (s : Store) (thread_id : String) :
    Option SuccessResponse × Store :=
  let dm := MessageRepository.delete_messages s thread_id
  let dt := ThreadRepository.delete_thread dm.2 thread_id
  if dt.1 then
    (Option.some
      { ok := true,
        message := "Thread and " ++ toString dm.1 ++ " messages deleted successfully" }, dt.2)
  else (Option.none, dt.2)

/-- MessageService.get_conversation_history: verify the thread exists, then
fetch via get_messages_with_pagination with `skip = 0` and the given limit —
an ascending-order prefix, i.e. the OLDEST `limit` messages. -/
def MessageService.get_conversation_history (s : Store) (thread_id : String) (limit : Nat) :
    Option (List MessageOut) :=
  match ThreadRepository.get_thread s thread_id with
  | Option.none => Option.none
  | Option.some _ =>
    Option.some (MessageRepository.get_messages_with_pagination s thread_id 0 limit).1

/-- Outcome of an HTTP handler: success payload or an HTTPException. -/
inductive ApiResult (α : Type) where
  | ok (a : α)
  | notFound (detail : String)
  | serverError (detail : String)
deriving DecidableEq, Repr

/-- Router GET /threads/{id}/history (app/routers/threads.py): 404 when the
service reports a missing thread, otherwise the service payload. -/
def Routers.get_conversation_history (s : Store) (thread_id : String) (limit : Nat) :
    ApiResult (List MessageOut) :=
  match MessageService.get_conversation_history s thread_id limit with
  | Option.none => ApiResult.notFound "Thread not found"
  | Option.some msgs => ApiResult.ok msgs

/-- Router POST /threads/{id}/messages (app/routers/threads.py): verify the
thread exists (404 otherwise, before any write), then run
ChatService.send_message. -/
def Routers.send_message_to_thread (s : Store) (st : Settings) (configured : Bool)
    (thread_id content : String) (metadata : Option Metadata)
    (outcome : ChainOutcome) (elapsed : Nat) : ApiResult SendMessageResponse × Store :=
  match ThreadRepository.get_thread s thread_id with
  | Option.none => (ApiResult.notFound "Thread not found", s)
  | Option.some _ =>
    let r := ChatService.send_message s st configured thread_id content metadata outcome elapsed
    (ApiResult.ok r.1, r.2)

/-- Router DELETE /threads/{id} (app/routers/threads.py): 404 when the
service reports no match. -/
def Routers.delete_thread (s : Store) (thread_id : String) :
    ApiResult SuccessResponse × Store :=
  let r := ThreadService.delete_thread s thread_id
  match r.1 with
  | Option.none => (ApiResult.notFound "Thread not found", r.2)
  | Option.some ok => (ApiResult.ok ok, r.2)

/-- Result dict of the flat-variant AIService.process_message
(src/services/ai_service.py) — that function catches every exception and
always returns a dict. -/
structure FlatAIResult where
  content : String
  model : String
  usage : AIUsage
  latency_ms : Nat
deriving DecidableEq, Repr

/-- Flat-variant POST /threads/{id}/messages (src/routes/messages.py): NO
thread-existence check.  Generates ids (timestamp + random suffixes given as
`rand_u`/`rand_a`), calls the AI service, inserts the user message and the
assistant message (each stamped with its own `utcnow()`, no metadata key),
and touches the thread via an `update_one` that simply matches nothing when
the thread is absent.  Returns 200 with the payload. -/
def FlatRoutes.send_message (s : Store) (thread_id content : String)
    (ai : FlatAIResult) (rand_u rand_a : String) :
    ApiResult SendMessageResponse × Store :=
  let t1 := (tick s).1
  let s1 := (tick s).2
  let user_message_id := "msg_" ++ toString t1 ++ "_user_" ++ rand_u
  let t2 := (tick s1).1
  let s2 := (tick s1).2
  let assistant_message_id := "msg_" ++ toString t2 ++ "_assistant_" ++ rand_a
  let t3 := (tick s2).1
  let s3 := (tick s2).2
  let userMsg : MessageDoc :=
    { id := user_message_id, threadId := thread_id, role := "user", content := content,
      createdAt := t3, metadata := [] }
  let s4 := { s3 with messages := s3.messages ++ [userMsg] }
  let t4 := (tick s4).1
  let s5 := (tick s4).2
  let asstMsg : MessageDoc :=
    { id := assistant_message_id, threadId := thread_id, role := "assistant",
      content := ai.content, createdAt := t4, metadata := [] }
  let s6 := { s5 with messages := s5.messages ++ [asstMsg] }
  let t5 := (tick s6).1
  let s7 := (tick s6).2
  let touched := (updateFirstThread s7.threads thread_id (fun t => { t with updatedAt := t5 })).1
  let s8 := { s7 with threads := touched }
  let resp : SendMessageResponse :=
    { thread_id := thread_id, user_message_id := user_message_id,
      assistant_message_id := assistant_message_id, assistant_content := ai.content,
      assistant_model := ai.model, assistant_usage := ai.usage,
      assistant_latency_ms := ai.latency_ms }
  (ApiResult.ok resp, s8)

/-- Specification-side definition, following the words of the spec: the
history window is the most recent `limit` messages of the thread presented in
chronological (ascending createdAt) order, i.e. the chronologically sorted
message list of the thread with all but its last `limit` elements dropped. -/
def historyWindowSpec (s : Store) (thread_id : String) (limit : Nat) : List MessageDoc :=
  let chron := List.insertionSort byCreatedAtAsc
    (s.messages.filter (fun m => m.threadId = thread_id))
  chron.drop (chron.length - limit)

/-- A store with no documents at all. -/
def emptyStore : Store := { threads := [], messages := [], clock := 0 }

/-- Concrete welcome-style message, oldest of the three-message thread `t1`. -/
def msgOne : MessageDoc :=
  { id := "m1", threadId := "t1", role := "assistant", content := "w", createdAt := 1,
    metadata := [("type", PyVal.str "welcome")] }

/-- Concrete user message in thread `t1`. -/
def msgTwo : MessageDoc :=
  { id := "m2", threadId := "t1", role := "user", content := "u", createdAt := 2, metadata := [] }

/-- Concrete assistant message, newest of the three in thread `t1`. -/
def msgThree : MessageDoc :=
  { id := "m3", threadId := "t1", role := "assistant", content := "r", createdAt := 3,
    metadata := [] }

/-- Concrete thread document `t1`. -/
def threadOne : ThreadDoc := { id := "t1", title := "T", createdAt := 0, updatedAt := 3 }

/-- Store holding thread `t1` with three messages at instants 1 < 2 < 3. -/
def storeThree : Store :=
  { threads := [threadOne], messages := [msgOne, msgTwo, msgThree], clock := 4 }

/-- If a string has a nonempty head, appending anything keeps it nonempty. -/
theorem str_append_ne_empty (a b : String) (h : ¬ a = "") : ¬ (a ++ b) = "" := by
  intro hab
  apply h
  apply String.ext
  have hdata : (a ++ b).data = ("" : String).data := by rw [hab]
  rw [String.data_append] at hdata
  have ha : a.data = [] := (List.append_eq_nil.mp hdata).1
  rw [ha]

/-- `find?` misses `tid` exactly when `delete_one` matches nothing and leaves
the collection unchanged. -/
theorem deleteFirstThread_of_find_none (l : List ThreadDoc) (tid : String)
    (h : l.find? (fun t => t.id = tid) = Option.none) :
    deleteFirstThread l tid = (l, false) := by
  induction l with
  | nil => rfl
  | cons t ts ih =>
    by_cases ht : t.id = tid
    · simp [List.find?, ht] at h
    · rw [List.find?_cons_of_neg] at h
      · simp [deleteFirstThread, ht, ih h]
      · simp [ht]

/-- `update_one` on a collection whose first `tid`-match is `th` reports a
match and rewrites exactly that document, provided the update keeps the id. -/
theorem updateFirstThread_of_find_some (l : List ThreadDoc) (tid : String)
    (f : ThreadDoc → ThreadDoc) (hf : ∀ t, (f t).id = t.id) (th : ThreadDoc)
    (h : l.find? (fun t => t.id = tid) = Option.some th) :
    (updateFirstThread l tid f).2 = true ∧
    (updateFirstThread l tid f).1.find? (fun t => t.id = tid) = Option.some (f th) := by
  induction l with
  | nil => simp [List.find?] at h
  | cons t ts ih =>
    by_cases ht : t.id = tid
    · have hth : t = th := by
        rw [List.find?_cons_of_pos] at h
        · exact Option.some_injective _ h
        · simp [ht]
      subst hth
      refine ⟨by simp [updateFirstThread, ht], ?_⟩
      have : (updateFirstThread (t :: ts) tid f).1 = f t :: ts := by
        simp [updateFirstThread, ht]
      rw [this, List.find?_cons_of_pos]
      simp [hf t, ht]
    · rw [List.find?_cons_of_neg] at h
      · have hrec := ih h
        have h1 : (updateFirstThread (t :: ts) tid f).1
            = t :: (updateFirstThread ts tid f).1 := by
          simp [updateFirstThread, ht]
        have h2 : (updateFirstThread (t :: ts) tid f).2
            = (updateFirstThread ts tid f).2 := by
          simp [updateFirstThread, ht]
        refine ⟨by rw [h2]; exact hrec.1, ?_⟩
        rw [h1, List.find?_cons_of_neg]
        · exact hrec.2
        · simp [ht]
      · simp [ht]

/-- Claim C1: the spec says creating a thread synchronously also creates one
assistant-authored welcome message with `metadata.type = "welcome"` and that
`ThreadService.create_thread` completes without raising.  The code instead
passes the whole welcome dict as the single positional argument of
`MessageRepository.create_message` (which requires four), so every thread
creation raises TypeError after inserting the thread and before writing any
message: evaluated at the valid title "Hello" on an empty store, the call
errors, the thread document exists, and the messages collection stays empty. -/
theorem C1_create_thread_welcome_raises :
    (ThreadService.create_thread emptyStore "Hello").1
        = Except.error createMessageArityError ∧
    (ThreadService.create_thread emptyStore "Hello").2.messages = [] ∧
    ((ThreadService.create_thread emptyStore "Hello").2.threads.map ThreadDoc.title)
        = ["Hello"] := by
  refine ⟨rfl, rfl, rfl⟩

/-- Claim C2: the spec says GET /threads/{id}/history returns the most recent
N messages in chronological order.  The handler goes through
`MessageService.get_conversation_history`, which reads an ascending `skip = 0`
page (`get_messages_with_pagination`), i.e. the N OLDEST messages: on a
thread with messages at instants 1 < 2 < 3 and limit 2 it returns the two
oldest, not the spec's most-recent-two window. -/
theorem C2_history_endpoint_returns_oldest :
    Routers.get_conversation_history storeThree "t1" 2
        = ApiResult.ok [msgOne.toOut, msgTwo.toOut] ∧
    ¬ Routers.get_conversation_history storeThree "t1" 2
        = ApiResult.ok ((historyWindowSpec storeThree "t1" 2).map MessageDoc.toOut) := by
  exact ⟨by decide, by decide⟩

/-- Strictly-newer-first comparison on messages. -/
def byCreatedAtGt (a b : MessageDoc) : Prop := b.createdAt < a.createdAt

instance : IsAntisymm MessageDoc byCreatedAtGt :=
  ⟨fun _ _ h1 h2 => absurd (Nat.lt_trans h1 h2) (Nat.lt_irrefl _)⟩

/-- Distinct keys upgrade a weakly ascending chain to a strictly ascending
one. -/
theorem pairwise_lt_of_asc_ne (m : List MessageDoc)
    (hs : m.Pairwise byCreatedAtAsc)
    (hne : m.Pairwise (fun a b => ¬ a.createdAt = b.createdAt)) :
    m.Pairwise (fun a b => a.createdAt < b.createdAt) :=
  (hs.and hne).imp (fun h => Nat.lt_of_le_of_ne h.1 h.2)

/-- Distinct keys upgrade a weakly descending chain to a strictly descending
one. -/
theorem pairwise_gt_of_desc_ne (m : List MessageDoc)
    (hs : m.Pairwise byCreatedAtDesc)
    (hne : m.Pairwise (fun a b => ¬ a.createdAt = b.createdAt)) :
    m.Pairwise byCreatedAtGt :=
  (hs.and hne).imp (fun h => Nat.lt_of_le_of_ne h.1 (fun he => h.2 he.symm))

/-- On messages with pairwise distinct `createdAt` keys, the descending sort
is exactly the reverse of the ascending sort (with ties both cursor orders
would be underdetermined; the repository relies on the spec invariant that
`createdAt` values are distinct within a thread). -/
theorem insertionSortDesc_eq_reverse_asc (l : List MessageDoc)
    (hnd : (l.map MessageDoc.createdAt).Nodup) :
    List.insertionSort byCreatedAtDesc l
      = (List.insertionSort byCreatedAtAsc l).reverse := by
  have hne : l.Pairwise (fun a b => ¬ a.createdAt = b.createdAt) :=
    List.pairwise_map.mp hnd
  have hsymm : Symmetric (fun a b : MessageDoc => ¬ a.createdAt = b.createdAt) :=
    fun _ _ h he => h he.symm
  apply List.eq_of_perm_of_sorted (r := byCreatedAtGt)
  · exact (List.perm_insertionSort byCreatedAtDesc l).trans
      ((List.perm_insertionSort byCreatedAtAsc l).symm.trans
        (List.reverse_perm _).symm)
  · exact pairwise_gt_of_desc_ne _
      (List.sorted_insertionSort byCreatedAtDesc l)
      (((List.perm_insertionSort byCreatedAtDesc l).pairwise_iff
        (fun h => hsymm h)).mpr hne)
  · show List.Pairwise byCreatedAtGt (List.insertionSort byCreatedAtAsc l).reverse
    rw [List.pairwise_reverse]
    exact pairwise_lt_of_asc_ne _
      (List.sorted_insertionSort byCreatedAtAsc l)
      (((List.perm_insertionSort byCreatedAtAsc l).pairwise_iff
        (fun h => hsymm h)).mpr hne)

/-- Claim C3: on a thread whose messages carry pairwise distinct `createdAt`
keys (the spec's data-model invariant), `MessageRepository.get_history`
returns exactly the most recent `limit` messages in chronological order: it
equals the specification-side window (all but the last `limit` elements of
the chronologically sorted thread messages dropped) and is sorted ascending
by `createdAt`. -/
theorem C3_get_history_most_recent (s : Store) (tid : String) (limit : Nat)
    (hnd : ((s.messages.filter (fun m => m.threadId = tid)).map MessageDoc.createdAt).Nodup) :
    MessageRepository.get_history s tid limit = historyWindowSpec s tid limit ∧
    List.Sorted byCreatedAtAsc (MessageRepository.get_history s tid limit) := by
  have key : MessageRepository.get_history s tid limit = historyWindowSpec s tid limit := by
    unfold MessageRepository.get_history historyWindowSpec
    rw [insertionSortDesc_eq_reverse_asc _ hnd, List.take_reverse, List.reverse_reverse]
  refine ⟨key, ?_⟩
  rw [key]
  unfold historyWindowSpec
  exact (List.sorted_insertionSort byCreatedAtAsc _).sublist (List.drop_sublist ..)

/-- Witness for C3 at the concrete three-message thread with limit 2. -/
theorem C3_get_history_most_recent_witness :
    MessageRepository.get_history storeThree "t1" 2 = historyWindowSpec storeThree "t1" 2 ∧
    List.Sorted byCreatedAtAsc (MessageRepository.get_history storeThree "t1" 2) :=
  C3_get_history_most_recent storeThree "t1" 2 (by decide)

/-- Claim C7: two consecutive `get_messages` pages of size K concatenate to
the single page of size 2K and are disjoint (messages of the thread have
pairwise distinct `createdAt` keys, the spec's data-model invariant, which
also makes the single-key Mongo sort deterministic). -/
theorem C7_pagination_slices (s : Store) (tid : String) (K : Nat) (hK : 1 ≤ K)
    (hnd : ((s.messages.filter (fun m => m.threadId = tid)).map MessageDoc.createdAt).Nodup) :
    MessageRepository.get_messages s tid 0 K ++ MessageRepository.get_messages s tid K K
      = MessageRepository.get_messages s tid 0 (2 * K) ∧
    ∀ m, m ∈ MessageRepository.get_messages s tid 0 K →
      ¬ m ∈ MessageRepository.get_messages s tid K K := by
  unfold MessageRepository.get_messages
  have hLnd : (List.insertionSort byCreatedAtAsc
      (s.messages.filter (fun m => m.threadId = tid))).Nodup :=
    ((List.perm_insertionSort byCreatedAtAsc _).nodup_iff).mpr hnd.of_map
  constructor
  · rw [two_mul, List.take_add]
    simp [List.drop_zero]
  · intro m hm1 hm2
    have hdisj := List.disjoint_take_drop hLnd (Nat.le_refl K)
    exact hdisj hm1 ((List.take_sublist ..).subset hm2)

/-- Witness for C7 at the concrete three-message thread with K = 1. -/
theorem C7_pagination_slices_witness :
    MessageRepository.get_messages storeThree "t1" 0 1
        ++ MessageRepository.get_messages storeThree "t1" 1 1
      = MessageRepository.get_messages storeThree "t1" 0 (2 * 1) ∧
    ∀ m, m ∈ MessageRepository.get_messages storeThree "t1" 0 1 →
      ¬ m ∈ MessageRepository.get_messages storeThree "t1" 1 1 :=
  C7_pagination_slices storeThree "t1" 1 (by decide) (by decide)

/-- Settings with the provider unset, as when no AI env vars are configured. -/
def settingsUnset : Settings :=
  { ai_provider := "unset", gemini_api_key := Option.none,
    gemini_model := "gemini-1.5-flash", openai_api_key := Option.none,
    openai_model := "gpt-4o-mini", max_history_messages := 15 }

/-- Claim C5: whenever the model is unconfigured (no `_llm`/`_chain`) or the
chain invocation raised, `AIService.process_message` returns a degraded
synthetic response instead of raising: sentinel model name in
{"mock", "error"} (this implementation always uses "mock"), non-empty
user-facing content that embeds the error text on the exception path, and
non-negative usage counters.  The embedding is a total function, mirroring
the blanket `except` that keeps every outcome from propagating. -/
theorem C5_ai_failures_degrade (st : Settings) (configured : Bool) (content : String)
    (outcome : ChainOutcome) (elapsed : Nat)
    (h : configured = false ∨ ∃ e, outcome = ChainOutcome.exn e) :
    ((AIService.process_message st configured content outcome elapsed).model = "mock" ∨
     (AIService.process_message st configured content outcome elapsed).model = "error") ∧
    ¬ (AIService.process_message st configured content outcome elapsed).content = "" ∧
    0 ≤ (AIService.process_message st configured content outcome elapsed).usage.prompt_tokens ∧
    0 ≤ (AIService.process_message st configured content outcome elapsed).usage.completion_tokens ∧
    0 ≤ (AIService.process_message st configured content outcome elapsed).usage.total_tokens ∧
    (configured = true → ∀ e, outcome = ChainOutcome.exn e →
      (AIService.process_message st configured content outcome elapsed).content
        = apologyPre ++ e ++ apologyPost) := by
  have hpre : ¬ apologyPre = "" := by decide
  have hecho : ¬ mockEchoPre = "" := by decide
  rcases h with hc | ⟨e, he⟩
  · subst hc
    refine ⟨Or.inl rfl, ?_, Nat.zero_le _, Nat.zero_le _, Nat.zero_le _, ?_⟩
    · show ¬ (AIService.mock_response content elapsed Option.none).content = ""
      exact str_append_ne_empty _ _ (str_append_ne_empty _ _ hecho)
    · intro hT
      exact absurd hT (by decide)
  · subst he
    cases configured with
    | false =>
      refine ⟨Or.inl rfl, ?_, Nat.zero_le _, Nat.zero_le _, Nat.zero_le _, ?_⟩
      · show ¬ (AIService.mock_response content elapsed Option.none).content = ""
        exact str_append_ne_empty _ _ (str_append_ne_empty _ _ hecho)
      · intro hT
        exact absurd hT (by decide)
    | true =>
      refine ⟨Or.inl rfl, ?_, Nat.zero_le _, Nat.zero_le _, Nat.zero_le _, ?_⟩
      · show ¬ (AIService.mock_response content elapsed (Option.some e)).content = ""
        exact str_append_ne_empty _ _ (str_append_ne_empty _ _ hpre)
      · intro _ e2 he2
        cases he2
        rfl

/-- Witness for C5: content "hello" with nothing configured
(`llm_configured` computes to false on the unset settings). -/
theorem C5_ai_failures_degrade_witness :
    ((AIService.process_message settingsUnset
        (AIService.llm_configured true true settingsUnset) "hello"
        (ChainOutcome.ok "x" Option.none) 0).model = "mock" ∨
     (AIService.process_message settingsUnset
        (AIService.llm_configured true true settingsUnset) "hello"
        (ChainOutcome.ok "x" Option.none) 0).model = "error") ∧
    ¬ (AIService.process_message settingsUnset
        (AIService.llm_configured true true settingsUnset) "hello"
        (ChainOutcome.ok "x" Option.none) 0).content = "" ∧
    0 ≤ (AIService.process_message settingsUnset
        (AIService.llm_configured true true settingsUnset) "hello"
        (ChainOutcome.ok "x" Option.none) 0).usage.prompt_tokens ∧
    0 ≤ (AIService.process_message settingsUnset
        (AIService.llm_configured true true settingsUnset) "hello"
        (ChainOutcome.ok "x" Option.none) 0).usage.completion_tokens ∧
    0 ≤ (AIService.process_message settingsUnset
        (AIService.llm_configured true true settingsUnset) "hello"
        (ChainOutcome.ok "x" Option.none) 0).usage.total_tokens ∧
    ((AIService.llm_configured true true settingsUnset) = true →
      ∀ e, (ChainOutcome.ok "x" Option.none) = ChainOutcome.exn e →
      (AIService.process_message settingsUnset
        (AIService.llm_configured true true settingsUnset) "hello"
        (ChainOutcome.ok "x" Option.none) 0).content
          = apologyPre ++ e ++ apologyPost) :=
  C5_ai_failures_degrade settingsUnset (AIService.llm_configured true true settingsUnset)
    "hello" (ChainOutcome.ok "x" Option.none) 0 (Or.inl (by decide))

/-- Mock result of the flat-variant AI service for the C6 counterexample. -/
def flatMockAI : FlatAIResult :=
  { content := "reply", model := "mock",
    usage := { prompt_tokens := 1, completion_tokens := 1, total_tokens := 2 },
    latency_ms := 500 }

/-- Counterexample to claim C6 as stated: the flat-variant handler
(src/routes/messages.py, one of the claim's two cited implementations) never
checks that the thread exists.  Sent to the absent thread id "ghost" on an
empty store, it answers 200 (not a NotFound outcome) and persists two
message documents under that thread id. -/
theorem C6_counterexample_flat_route_writes :
    (FlatRoutes.send_message emptyStore "ghost" "hi" flatMockAI "aa" "bb").1
      = ApiResult.ok
        { thread_id := "ghost", user_message_id := "msg_0_user_aa",
          assistant_message_id := "msg_1_assistant_bb", assistant_content := "reply",
          assistant_model := "mock",
          assistant_usage := { prompt_tokens := 1, completion_tokens := 1, total_tokens := 2 },
          assistant_latency_ms := 500 } ∧
    ((FlatRoutes.send_message emptyStore "ghost" "hi" flatMockAI "aa" "bb").2.messages.filter
        (fun m => m.threadId = "ghost")).length = 2 := by
  exact ⟨rfl, rfl⟩

/-- Claim C6 amended: in the layered router (app/routers/threads.py), sending
a message to a thread id that does not exist yields exactly a 404 with detail
"Thread not found" and leaves the store untouched — no message is written;
the flat-variant route performs no such check and does write the two
messages (see the counterexample). -/
theorem C6_amended_app_router_404 (s : Store) (st : Settings) (configured : Bool)
    (tid content : String) (metadata : Option Metadata) (outcome : ChainOutcome)
    (elapsed : Nat) (h : ThreadRepository.get_thread s tid = Option.none) :
    Routers.send_message_to_thread s st configured tid content metadata outcome elapsed
      = (ApiResult.notFound "Thread not found", s) := by
  unfold Routers.send_message_to_thread
  rw [h]

/-- Witness for the amended C6 on the empty store. -/
theorem C6_amended_app_router_404_witness :
    Routers.send_message_to_thread emptyStore settingsUnset false "ghost" "hi"
        Option.none (ChainOutcome.ok "x" Option.none) 0
      = (ApiResult.notFound "Thread not found", emptyStore) :=
  C6_amended_app_router_404 emptyStore settingsUnset false "ghost" "hi"
    Option.none (ChainOutcome.ok "x" Option.none) 0 (by decide)

/-- Claim C9: `ThreadRepository.update_thread` with no title supplied still
matches the existing thread (reporting true), sets its `updatedAt` to the
current instant, and leaves id, title and `createdAt` unchanged. -/
theorem C9_touch_refreshes_only_updatedAt (s : Store) (tid : String) (th : ThreadDoc)
    (hth : ThreadRepository.get_thread s tid = Option.some th) :
    (ThreadRepository.update_thread s tid Option.none).1 = true ∧
    ThreadRepository.get_thread (ThreadRepository.update_thread s tid Option.none).2 tid
      = Option.some
        { id := th.id, title := th.title, createdAt := th.createdAt, updatedAt := s.clock } := by
  have key := updateFirstThread_of_find_some s.threads tid
    (fun t => { t with updatedAt := s.clock, title := (Option.none : Option String).getD t.title })
    (fun _ => rfl) th hth
  exact ⟨key.1, key.2⟩

/-- Witness for C9 at the concrete store holding thread `t1`. -/
theorem C9_touch_refreshes_only_updatedAt_witness :
    (ThreadRepository.update_thread storeThree "t1" Option.none).1 = true ∧
    ThreadRepository.get_thread (ThreadRepository.update_thread storeThree "t1" Option.none).2 "t1"
      = Option.some
        { id := threadOne.id, title := threadOne.title, createdAt := threadOne.createdAt,
          updatedAt := storeThree.clock } :=
  C9_touch_refreshes_only_updatedAt storeThree "t1" threadOne (by decide)

/-- Claim C10: deleting a nonexistent thread is not atomic.
`ThreadService.delete_thread` deletes every message bearing the thread id
BEFORE checking the thread, so on a missing thread it reports failure (the
router surfaces 404 "Thread not found") while any orphan messages with that
thread id are already gone: the message store ends up filtered, not
unchanged. -/
theorem C10_delete_missing_thread_still_deletes_messages (s : Store) (tid : String)
    (hmiss : ThreadRepository.get_thread s tid = Option.none) :
    (ThreadService.delete_thread s tid).1 = Option.none ∧
    (Routers.delete_thread s tid).1 = ApiResult.notFound "Thread not found" ∧
    (ThreadService.delete_thread s tid).2.messages
      = s.messages.filter (fun m => ¬ m.threadId = tid) ∧
    ∀ m, m ∈ s.messages → m.threadId = tid →
      ¬ m ∈ (ThreadService.delete_thread s tid).2.messages := by
  have hdel : deleteFirstThread s.threads tid = (s.threads, false) :=
    deleteFirstThread_of_find_none s.threads tid hmiss
  have h1 : (ThreadService.delete_thread s tid).1 = Option.none := by
    simp [ThreadService.delete_thread, ThreadRepository.delete_thread,
      MessageRepository.delete_messages, hdel]
  have h3 : (ThreadService.delete_thread s tid).2.messages
      = s.messages.filter (fun m => ¬ m.threadId = tid) := by
    simp [ThreadService.delete_thread, ThreadRepository.delete_thread,
      MessageRepository.delete_messages, hdel]
  refine ⟨h1, ?_, h3, ?_⟩
  · simp [Routers.delete_thread, h1]
  · intro m _ hmt hmem
    rw [h3] at hmem
    have := (List.mem_filter.mp hmem).2
    simp [hmt] at this

/-- Witness for C10: a store with an orphan message in thread `t1` and no
thread documents at all. -/
theorem C10_delete_missing_thread_still_deletes_messages_witness :
    (ThreadService.delete_thread { threads := [], messages := [msgOne], clock := 5 } "t1").1
        = Option.none ∧
    (Routers.delete_thread { threads := [], messages := [msgOne], clock := 5 } "t1").1
        = ApiResult.notFound "Thread not found" ∧
    (ThreadService.delete_thread { threads := [], messages := [msgOne], clock := 5 } "t1").2.messages
        = (({ threads := [], messages := [msgOne], clock := 5 } : Store).messages.filter
            (fun m => ¬ m.threadId = "t1")) ∧
    ∀ m, m ∈ ({ threads := [], messages := [msgOne], clock := 5 } : Store).messages →
      m.threadId = "t1" →
      ¬ m ∈ (ThreadService.delete_thread
          { threads := [], messages := [msgOne], clock := 5 } "t1").2.messages :=
  C10_delete_missing_thread_still_deletes_messages
    { threads := [], messages := [msgOne], clock := 5 } "t1" (by decide)

/-- Claim C4: a send on an existing thread persists exactly two new messages,
appended in order — first the user message carrying the request content, then
the assistant message carrying the AI reply — with the user stamp at or
before the assistant stamp, and then advances the thread's `updatedAt` to at
least the assistant stamp. -/
theorem C4_send_message_persists_pair (s : Store) (st : Settings) (configured : Bool)
    (tid content : String) (metadata : Option Metadata) (outcome : ChainOutcome)
    (elapsed : Nat) (th : ThreadDoc)
    (hth : ThreadRepository.get_thread s tid = Option.some th) :
    ∃ u a th2,
      (ChatService.send_message s st configured tid content metadata outcome elapsed).2.messages
          = s.messages ++ [u, a] ∧
      u.role = "user" ∧ u.content = content ∧ u.threadId = tid ∧
      a.role = "assistant" ∧ a.threadId = tid ∧
      a.content = (AIService.process_message st configured content outcome elapsed).content ∧
      u.createdAt ≤ a.createdAt ∧
      ThreadRepository.get_thread
          (ChatService.send_message s st configured tid content metadata outcome elapsed).2 tid
        = Option.some th2 ∧
      a.createdAt ≤ th2.updatedAt := by
  have key := updateFirstThread_of_find_some s.threads tid
    (fun t =>
      { t with updatedAt := s.clock + 3, title := (Option.none : Option String).getD t.title })
    (fun _ => rfl) th hth
  let ai := AIService.process_message st configured content outcome elapsed
  let u : MessageDoc :=
    { id := "msg_" ++ toString s.clock ++ "_user_" ++ toString s.clock, threadId := tid,
      role := "user", content := content, createdAt := s.clock + 1,
      metadata := metadata.getD [] }
  let a : MessageDoc :=
    { id := "msg_" ++ toString s.clock ++ "_assistant_" ++ toString (s.clock + 1),
      threadId := tid, role := "assistant", content := ai.content,
      createdAt := s.clock + 2,
      metadata := [("model", PyVal.str ai.model), ("usage", usageDict ai.usage),
                   ("latency_ms", PyVal.int ai.latency_ms)] }
  have hmsg :
      (ChatService.send_message s st configured tid content metadata outcome elapsed).2.messages
        = s.messages ++ [u, a] := by
    show (s.messages ++ [u]) ++ [a] = s.messages ++ [u, a]
    rw [List.append_assoc]
    rfl
  exact ⟨u, a, { th with updatedAt := s.clock + 3 }, hmsg, rfl, rfl, rfl, rfl, rfl, rfl,
    Nat.le_succ _, key.2, Nat.le_succ _⟩

/-- Witness for C4: a concrete send on the existing thread `t1`. -/
theorem C4_send_message_persists_pair_witness :
    ∃ u a th2,
      (ChatService.send_message storeThree settingsUnset false "t1" "hi" Option.none
          (ChainOutcome.ok "x" Option.none) 0).2.messages
          = storeThree.messages ++ [u, a] ∧
      u.role = "user" ∧ u.content = "hi" ∧ u.threadId = "t1" ∧
      a.role = "assistant" ∧ a.threadId = "t1" ∧
      a.content = (AIService.process_message settingsUnset false "hi"
          (ChainOutcome.ok "x" Option.none) 0).content ∧
      u.createdAt ≤ a.createdAt ∧
      ThreadRepository.get_thread
          (ChatService.send_message storeThree settingsUnset false "t1" "hi" Option.none
            (ChainOutcome.ok "x" Option.none) 0).2 "t1"
        = Option.some th2 ∧
      a.createdAt ≤ th2.updatedAt :=
  C4_send_message_persists_pair storeThree settingsUnset false "t1" "hi" Option.none
    (ChainOutcome.ok "x" Option.none) 0 threadOne (by decide)

/-- First of two threads sharing `updatedAt = 5`. -/
def threadA : ThreadDoc := { id := "a", title := "A", createdAt := 0, updatedAt := 5 }

/-- Second of two threads sharing `updatedAt = 5`. -/
def threadB : ThreadDoc := { id := "b", title := "B", createdAt := 0, updatedAt := 5 }

/-- Store with two threads whose `updatedAt` values tie. -/
def storeTie : Store := { threads := [threadA, threadB], messages := [], clock := 6 }

/-- Counterexample to claim C8 as stated: the thread listing sorts by
`updatedAt` only (`sort("updatedAt", -1)` with no secondary key), so on two
threads with equal `updatedAt` both orders are valid replies of the query:
the operation is not deterministic and no stable secondary tie-break key
exists in the code. -/
theorem C8_counterexample_ties_not_deterministic :
    ThreadRepository.get_threads_spec storeTie 0 2 [threadA, threadB] ∧
    ThreadRepository.get_threads_spec storeTie 0 2 [threadB, threadA] ∧
    ¬ ([threadA, threadB] : List ThreadDoc) = [threadB, threadA] := by
  refine ⟨⟨[threadA, threadB], List.Perm.refl _, ?_, rfl⟩,
    ⟨[threadB, threadA], List.Perm.swap threadA threadB [], ?_, rfl⟩, by decide⟩
  · unfold sortedByUpdatedAtDesc
    decide
  · unfold sortedByUpdatedAtDesc
    decide

/-- Claim C8 amended: every reply of the thread listing is sorted by
`updatedAt` descending, holds at most `limit` threads, and draws from the
stored threads — but the relative order of equal `updatedAt` values is
arbitrary (no secondary key is applied), so reproducibility across repeated
listings is NOT guaranteed when ties exist. -/
theorem C8_amended_sorted_but_ties_arbitrary (s : Store) (skip limit : Nat)
    (r : List ThreadDoc) (h : ThreadRepository.get_threads_spec s skip limit r) :
    sortedByUpdatedAtDesc r ∧ r.length ≤ limit ∧ ∀ t, t ∈ r → t ∈ s.threads := by
  rcases h with ⟨sorted, hperm, hsorted, hr⟩
  subst hr
  refine ⟨?_, List.length_take_le .., ?_⟩
  · exact hsorted.sublist ((List.take_sublist ..).trans (List.drop_sublist ..))
  · intro t ht
    exact hperm.subset
      (((List.take_sublist ..).trans (List.drop_sublist ..)).subset ht)

/-- Witness for the amended C8 at the tied store with skip 0, limit 1. -/
theorem C8_amended_sorted_but_ties_arbitrary_witness :
    sortedByUpdatedAtDesc [threadA] ∧ ([threadA] : List ThreadDoc).length ≤ 1 ∧
    ∀ t, t ∈ ([threadA] : List ThreadDoc) → t ∈ storeTie.threads :=
  C8_amended_sorted_but_ties_arbitrary storeTie 0 1 [threadA]
    ⟨[threadA, threadB], List.Perm.refl _, by unfold sortedByUpdatedAtDesc; decide, rfl⟩
